import Mathlib

/-!
Verification development for the ToolBrain tracing repository's
Natural-Language Trace Retrieval Engine.

The development shallowly embeds the Python sources:

* `toolbrain_tracing/core/store.py` — `BaseStorageBackend.execute_read_only_sql`
  (the Query Execution Guard), `search_similar_experiences` (Similarity
  Search), `save_chat_message` / `get_chat_history` (Conversation Store);
* `tracebrain/core/librarian.py` — `LibrarianAgent.query` (the conversational
  retrieval protocol) and its helpers;
* `toolbrain_tracing/api/v1/endpoints.py` — `natural_language_query`.

Third-party library behaviour that the code merely consumes (sqlparse's
statement classification, the SQL engine's execution outcome, json/regex
extraction helpers, the embedding model, the LLM provider) is modelled as
explicit environment/oracle parameters; the repository's own control flow
is translated directly.
-/

namespace ToolBrain

/-! ## Query Execution Guard (`BaseStorageBackend.execute_read_only_sql`)

`execute_read_only_sql` first runs `sqlparse.parse(query)` and rejects the
input unless the *first* parsed statement's `get_type()` is `"SELECT"`.
We model `sqlparse.parse` as an oracle returning the list of top-level
statement types (e.g. `["SELECT", "DELETE"]` for `"SELECT 1; DELETE ..."`),
and the engine's behaviour on an executed query as an `ExecOutcome`. -/

/-- A result row, as built by `dict(zip(column_names, row))`: an ordered
column-name/value association list. -/
abbrev Row := List (String × String)

/-- Outcome of `session.execute(text(query))` plus fetching, as observed by
the `except` clauses of `execute_read_only_sql`: a fetched result set, a
`sqlalchemy.exc.TimeoutError`, a `ProgrammingError` carrying `str(e)`, or
any other exception. -/
inductive ExecOutcome where
  | ok (rows : List Row)
  | timeout
  | programmingError (msg : String)
  | otherError
deriving Repr, DecidableEq

/-- The environment of the guard: `sqlparse.parse` (as the list of
`get_type()` strings of the parsed statements) and the engine. -/
structure SqlEnv where
  parse : String → List String
  exec : String → ExecOutcome

/-- `QueryResult`: either `{rows, count}` or `{error: message}`. -/
inductive QueryResult where
  | rows (rs : List Row) (count : Nat)
  | error (msg : String)
deriving Repr, DecidableEq

/-- The message of the `ValueError` raised when the first statement is not a
SELECT, as wrapped by the `except` clause. -/
def parsingErrorMsg : String :=
  "SQL Parsing Error: Only SELECT statements are permitted."

/-- The dedicated message returned on `sqlalchemy.exc.TimeoutError`. -/
def timeoutMsg : String :=
  "SQL Execution Error: The query took too long to execute and was timed out. Please write a more efficient query."

/-- The message returned for any unexpected execution exception. -/
def unexpectedErrorMsg : String :=
  "An unexpected internal error occurred."

/-- The validation step of `execute_read_only_sql`:
`if not parsed or parsed[0].get_type() != "SELECT": raise ValueError(...)`. -/
def guardAccepts (env : SqlEnv) (query : String) : Bool :=
  (env.parse query).head? == some "SELECT"

/-- Whether the guarded execution reaches the database at all.  The database
session (and hence any statement execution) is only opened after the parse
check succeeds. -/
def dbTouched (env : SqlEnv) (query : String) : Bool :=
  guardAccepts env query

/-- `BaseStorageBackend.execute_read_only_sql(query, row_limit=100)`:
parse-validate, then execute and fetch at most `row_limit` rows
(`result.fetchmany(row_limit)`), converting every engine fault into an
error dictionary instead of raising. -/
def execute_read_only_sql (env : SqlEnv) (query : String)
    (row_limit : Nat := 100) : QueryResult :=
  if ¬ guardAccepts env query then
    .error parsingErrorMsg
  else
    match env.exec query with
    | .ok rows =>
        let fetched := rows.take row_limit
        .rows fetched fetched.length
    | .timeout => .error timeoutMsg
    | .programmingError msg => .error ("SQL Execution Error: " ++ msg)
    | .otherError => .error unexpectedErrorMsg

/-! ### Concrete guard environments used in counterexamples and witnesses -/

/-- Engine/parser environment in which the input parses into a SELECT
statement followed by a DELETE statement (as `sqlparse` yields for
`"SELECT 1; DELETE FROM traces"`), and execution succeeds with one row. -/
def multiStmtEnv : SqlEnv :=
  { parse := fun _ => ["SELECT", "DELETE"]
    exec := fun _ => .ok [[("id", "t1")]] }

/-- Environment whose parser classifies the input as a DELETE statement. -/
def deleteStmtEnv : SqlEnv :=
  { parse := fun _ => ["DELETE"]
    exec := fun _ => .ok [] }

/-- Environment accepting the query and timing out at execution. -/
def timeoutEnv : SqlEnv :=
  { parse := fun _ => ["SELECT"]
    exec := fun _ => .timeout }

/-- The body of the timeout message, without the shared
`"SQL Execution Error: "` prefix. -/
def timeoutBody : String :=
  "The query took too long to execute and was timed out. Please write a more efficient query."

/-- Environment accepting the query, whose engine raises a
`ProgrammingError` whose `str(e)` happens to coincide with the timeout
message body. -/
def collidingProgErrEnv : SqlEnv :=
  { parse := fun _ => ["SELECT"]
    exec := fun _ => .programmingError timeoutBody }

/-- Environment accepting the query and returning three rows. -/
def threeRowEnv : SqlEnv :=
  { parse := fun _ => ["SELECT"]
    exec := fun _ => .ok [[("id", "a")], [("id", "b")], [("id", "c")]] }

/-! ## Conversation Store (`save_chat_message` / `get_chat_history`)

`save_chat_message` lazily creates the `ChatSession` row and appends one
`ChatMessage`; `get_chat_history` returns the session's messages ordered
by `created_at` ascending.  Message timestamps default to the insertion
instant, so the `created_at` order is the insertion order; the model keeps
the message log as a list in insertion order and never assigns
timestamps explicitly. -/

/-- A `{label, value}` suggestion pair. -/
abbrev Suggestion := String × String

/-- The structured answer object every terminal branch of the Librarian
returns: `{answer, suggestions, sources}`. -/
structure AnswerObj where
  answer : String
  suggestions : List Suggestion
  sources : List String
deriving Repr, DecidableEq

/-- The Python value passed as `content` to `save_chat_message`: a plain
string (user and tool messages), the full result dictionary (assistant
messages on answer/abstain branches), or the `{"answer": ...}` dictionary
saved on the non-tool fallback branch. -/
inductive MsgContent where
  | text (s : String)
  | result (a : AnswerObj)
  | answerOnly (s : String)
deriving Repr, DecidableEq

/-- One `ChatMessage` row. -/
structure ChatMsg where
  session_id : String
  role : String
  content : MsgContent
deriving Repr, DecidableEq

/-- The chat tables: the set of `ChatSession` ids and the `ChatMessage`
log in `created_at` (= insertion) order. -/
structure ChatStore where
  sessions : List String
  messages : List ChatMsg
deriving Repr, DecidableEq

/-- The empty chat store. -/
def ChatStore.empty : ChatStore := ⟨[], []⟩

/-- `BaseStorageBackend.save_chat_message(session_id, role, content)`:
create the session row if absent, then append one message. -/
def save_chat_message (st : ChatStore) (session_id role : String)
    (content : MsgContent) : ChatStore :=
  { sessions :=
      if st.sessions.contains session_id then st.sessions
      else st.sessions ++ [session_id]
    messages := st.messages ++ [⟨session_id, role, content⟩] }

/-- `BaseStorageBackend.get_chat_history(session_id)`: all messages of the
session, ordered by `created_at` ascending, projected to
`{role, content}` (the `created_at` column itself is not modelled since
order is positional). -/
def get_chat_history (st : ChatStore) (session_id : String) :
    List (String × MsgContent) :=
  (st.messages.filter (fun m => m.session_id == session_id)).map
    (fun m => (m.role, m.content))

/-- A sequence of `save_chat_message` calls applied in order. -/
def applySaves (st : ChatStore) (ops : List ChatMsg) : ChatStore :=
  ops.foldl (fun acc m => save_chat_message acc m.session_id m.role m.content) st

/-! ## Similarity Search (`BaseStorageBackend.search_similar_experiences`)

The SQL query filters stored traces to those with a non-null embedding,
non-null feedback and `CAST(feedback->>'rating' AS INTEGER) >= min_rating`,
orders by the pgvector cosine distance ascending, and takes `limit` rows.
The engine-computed cosine distance is modelled as an oracle on vectors
(entries abstracted to `Int`; only the induced order matters), and
`ORDER BY ... ASC` as an insertion sort by that key. -/

/-- Stored human feedback: the `rating` key of the JSONB payload (absent
keys yield SQL NULL) plus free-text comment. -/
structure Feedback where
  rating : Option Int
  comment : String
deriving Repr, DecidableEq

/-- The columns of a stored `Trace` row that similarity search reads. -/
structure StoredTrace where
  id : String
  embedding : Option (List Int)
  feedback : Option Feedback
  created_at : Nat
deriving Repr, DecidableEq

/-- The vector engine: `embedding <=> query_embedding` (cosine distance). -/
structure VectorEnv where
  dist : List Int → List Int → Int

/-- `feedback->>'rating'` of a trace: NULL when feedback or its rating key
is absent. -/
def ratingOf (t : StoredTrace) : Option Int :=
  t.feedback.bind Feedback.rating

/-- The three SQL filters: embedding not null, feedback not null, and
extracted rating at least `min_rating` (NULL ratings fail the
comparison). -/
def passesSimilarityFilter (min_rating : Int) (t : StoredTrace) : Bool :=
  t.embedding.isSome && t.feedback.isSome &&
    (match ratingOf t with
     | some r => decide (min_rating ≤ r)
     | none => false)

/-- One element of the returned list:
`{trace_id, score, rating, feedback-projection, created_at}` (the raw
`feedback` payload is recoverable from the trace; the claims concern
`rating`). -/
structure SimEntry where
  trace_id : String
  score : Option Int
  rating : Option Int
  created_at : Nat
deriving Repr, DecidableEq

/-- Insert `x` into `l` before the first element it compares `le` to. -/
def insertByLe {α : Type} (le : α → α → Bool) (x : α) : List α → List α
  | [] => [x]
  | y :: ys => if le x y then x :: y :: ys else y :: insertByLe le x ys

/-- Insertion sort by a boolean comparison; models `ORDER BY key ASC`. -/
def sortByLe {α : Type} (le : α → α → Bool) : List α → List α
  | [] => []
  | x :: xs => insertByLe le x (sortByLe le xs)

/-- The engine-computed distance of a stored trace's embedding to the
query embedding. -/
def traceDist (env : VectorEnv) (queryEmbedding : List Int)
    (t : StoredTrace) : Int :=
  env.dist (t.embedding.getD []) queryEmbedding

/-- `BaseStorageBackend.search_similar_experiences(text, min_rating=4,
limit=3)`: short-circuit to `[]` on a SQLite backend or empty text; embed
the text and short-circuit to `[]` on an empty embedding; otherwise
filter, rank by ascending distance, take `limit` and project each trace
to a result entry with `score = 1 - distance`. -/
def search_similar_experiences (env : VectorEnv) (db : List StoredTrace)
    (is_sqlite : Bool) (embedOf : String → List Int) (text : String)
    (min_rating : Int := 4) (limit : Nat := 3) : List SimEntry :=
  if is_sqlite || text == "" then []
  else
    let embedding := embedOf text
    if embedding == [] then []
    else
      let le := fun a b =>
        decide (traceDist env embedding a ≤ traceDist env embedding b)
      let ranked := sortByLe le (db.filter (passesSimilarityFilter min_rating))
      (ranked.take limit).map (fun t =>
        { trace_id := t.id
          score := some (1 - traceDist env embedding t)
          rating := ratingOf t
          created_at := t.created_at })

/-- `LocalEmbeddingProvider.get_embedding`: returns `[]` when the local
model failed to load (`self._model is None`) or when encoding raises
(modelled as the encoder returning `none`). -/
def localGetEmbedding (model : Option (String → Option (List Int)))
    (text : String) : List Int :=
  match model with
  | none => []
  | some enc => (enc text).getD []

/-- A trivial vector engine for concrete instances. -/
def zeroVectorEnv : VectorEnv := ⟨fun _ _ => 0⟩

/-- A stored trace with embedding and high-rated feedback, for concrete
instances. -/
def sampleTrace : StoredTrace :=
  { id := "a1b2", embedding := some [1, 0], feedback := some ⟨some 5, "good"⟩,
    created_at := 17 }

/-! ## Provider Abstraction

`tracebrain/core/librarian.py` drives an LLM provider through
`start_chat`, `send_user_message`, `send_tool_result`, `extract_text` and
`extract_tool_calls`.  A provider is modelled as a deterministic oracle
from the full conversation transcript to the next response; the mutable
provider session object is the transcript, threaded explicitly. -/

/-- One tool-call request extracted by `provider.extract_tool_calls`:
`{name, args, id}` with the argument defaults the agent applies
(`args.get("query", "")`, `int(args.get("min_rating", 4))`,
`int(args.get("limit", 3))`). -/
structure ToolCall where
  name : String
  argQuery : String
  argMinRating : Int
  argLimit : Nat
  id : Option String
deriving Repr, DecidableEq

/-- A provider response, as observed through `extract_text` and
`extract_tool_calls`. -/
structure ProviderResponse where
  text : String
  calls : List ToolCall
deriving Repr, DecidableEq

/-- One event of a provider conversation. -/
inductive PEvent where
  | start (system_prompt : String) (tools : List String)
  | user (msg : String)
  | toolRes (name : String) (result : String) (id : Option String)
deriving Repr, DecidableEq

/-- A provider chat session: the transcript of events so far. -/
abbrev Transcript := List PEvent

/-- A provider: the `supports_tools` capability flag and a deterministic
response oracle over transcripts. -/
structure Provider where
  supports_tools : Bool
  respond : Transcript → ProviderResponse

/-- `provider.start_chat(system_prompt, tools)`. -/
def Provider.start_chat (_p : Provider) (system_prompt : String)
    (tools : List String) : Transcript :=
  [PEvent.start system_prompt tools]

/-- `provider.send_user_message(session, msg)`: appends the message and
returns the provider's next response. -/
def Provider.send_user_message (p : Provider) (t : Transcript)
    (msg : String) : Transcript × ProviderResponse :=
  let t2 := t ++ [PEvent.user msg]
  (t2, p.respond t2)

/-- `provider.send_tool_result(session, tool_name, tool_result,
tool_call_id)`. -/
def Provider.send_tool_result (p : Provider) (t : Transcript)
    (name result : String) (id : Option String) :
    Transcript × ProviderResponse :=
  let t2 := t ++ [PEvent.toolRes name result id]
  (t2, p.respond t2)

/-! ## Librarian Agent (`tracebrain/core/librarian.py`)

The agent's json/regex/sqlparse helpers (`_extract_json`, `_extract_sql`,
`_extract_sources`) are pure text utilities whose internals (json.loads,
regex scans) are library behaviour; they are modelled as oracles with the
same types (`Option` = the helper raised / returned `None`). -/

/-- The dictionary produced by a successful `_extract_json`, projected to
the fields the agent reads: `str(parsed.get("answer", ""))`, the
`suggestions` value when it is a list of label/value dictionaries, and
the `sources` value when it is a list. -/
structure ParsedDict where
  answer : String
  suggestionsRaw : Option (List (String × String))
  sourcesRaw : Option (List String)
deriving Repr, DecidableEq

/-- The agent's text-extraction helpers as oracles. -/
structure TextUtils where
  extractJson : String → Option ParsedDict
  extractSql : String → Option String
  extractSources : String → Option (List String)

/-- Python truthiness of an optional string: `None` and `""` are falsy. -/
def truthyStr : Option String → Option String
  | some s => if s == "" then none else some s
  | none => none

/-- An ASCII whitespace character (the common core of Python's
`str.strip` default set). -/
def isPyWs (c : Char) : Bool :=
  c == ' ' || c == '\t' || c == '\n' || c == '\r'

/-- `str.strip()`: drop leading and trailing whitespace. -/
def pyStrip (s : String) : String :=
  String.mk (((s.data.dropWhile isPyWs).reverse.dropWhile isPyWs).reverse)

/-- `str.startswith(p)`: character-prefix test. -/
def pyStartsWith (s p : String) : Bool :=
  p.data.isPrefixOf s.data

/-- `LibrarianAgent._normalize_suggestions`: keep only label/value pairs
whose stripped label and value are both non-empty. -/
def normalize_suggestions (raw : Option (List (String × String))) :
    List Suggestion :=
  match raw with
  | none => []
  | some items => items.filterMap (fun lv =>
      let label := pyStrip lv.1
      let value := pyStrip lv.2
      if label != "" && value != "" then some (label, value) else none)

/-- `list(dict.fromkeys(cleaned))`: de-duplicate keeping first
occurrences. -/
def dedupKeepFirst (l : List String) : List String :=
  go l []
where
  /-- Recursive worker carrying the list of already-seen values. -/
  go : List String → List String → List String
  | [], _ => []
  | x :: xs, seen =>
      if seen.contains x then go xs seen else x :: go xs (x :: seen)

/-- `LibrarianAgent._normalize_sources`: a list value is cleaned (strip,
drop empties, de-duplicate); any other value falls back to the regex
trace-id extraction over the answer, defaulting to `[]`. -/
def normalize_sources (utils : TextUtils) (raw : Option (List String))
    (answer : String) : List String :=
  match raw with
  | some items =>
      dedupKeepFirst (items.filterMap (fun s =>
        let s2 := pyStrip s
        if s2 == "" then none else some s2))
  | none => (utils.extractSources answer).getD []

/-- The canned `LibrarianAgent._abstain_response`. -/
def abstainCanned : AnswerObj :=
  { answer := "I could not find any matching data. Can you clarify what you want to explore next?"
    suggestions := [("Widen time range", "Try the last 30 days"),
                    ("Search by episode", "Filter by tracebrain.episode.id"),
                    ("Search by tool", "Filter by tracebrain.tool.name")]
    sources := [] }

/-- The system prompt of `_abstain_response_from_llm` (opaque to the
model; consumed only by the provider oracle, prose abbreviated). -/
def abstainSystemPrompt : String :=
  "You are the TraceBrain AI Librarian expert. The database returned EMPTY_RESULT for the user's request. [task, suggestion guidelines, output rules]"

/-- The Librarian's system prompt (`_system_prompt` plus
`SCHEMA_CONTEXT`; opaque to the model, prose abbreviated). -/
def librarianSystemPrompt : String :=
  "You are the TraceBrain AI Librarian, an expert in Agent Operations (AgentOps). [instructions, core tools, critical SQL rules, strict JSON output format] PostgreSQL schema (read-only): traces(id, system_prompt, episode_id, created_at, feedback, attributes); spans(id, span_id, trace_id, parent_id, name, start_time, end_time, attributes)"

/-- The tool names declared by `_build_tool_specs`. -/
def librarianTools : List String :=
  ["run_sql_query", "search_similar_traces"]

/-- The user-content template shared by `query` and
`_abstain_response_from_llm`. -/
def queryUserContent (history_text user_query : String) : String :=
  "Conversation History:\n" ++ history_text ++ "\n\nUser Question:\n" ++
    user_query ++ "\n\nReturn JSON only."

/-- `LibrarianAgent._abstain_response_from_llm`: one fresh provider
exchange asking for a tailored clarification; any failure (JSON parse
error or empty answer) falls back to the canned response. -/
def abstain_response_from_llm (p : Provider) (utils : TextUtils)
    (user_query history_text : String) : AnswerObj :=
  let session := p.start_chat abstainSystemPrompt []
  let pr := p.send_user_message session (queryUserContent history_text user_query)
  match utils.extractJson pr.2.text with
  | none => abstainCanned
  | some parsed =>
      let answer := pyStrip parsed.answer
      let suggestions := normalize_suggestions parsed.suggestionsRaw
      if answer == "" then abstainCanned
      else { answer := answer, suggestions := suggestions, sources := [] }

/-- Rendering of one result row in `json.dumps(rows)` (starts with a
brace; exact punctuation is inert). -/
def renderRow (r : Row) : String :=
  "\x7b" ++ String.intercalate ", "
    (r.map (fun c => "\x22" ++ c.1 ++ "\x22: \x22" ++ c.2 ++ "\x22")) ++ "\x7d"

/-- `json.dumps` of a row list: always starts with a bracket, so it never
carries the `EXECUTION_FAILED`/`EMPTY_RESULT` sentinel prefixes. -/
def renderRows (rows : List Row) : String :=
  "[" ++ String.intercalate ", " (rows.map renderRow) ++ "]"

/-- The sentinel returned by `LibrarianAgent.run_sql_query` for a
zero-row result. -/
def emptyResultMsg : String := "EMPTY_RESULT: No data found for this query."

/-- `LibrarianAgent.run_sql_query`: execute through the guard, flag
errors with `EXECUTION_FAILED:`, flag zero-row results with
`EMPTY_RESULT:`, otherwise dump the rows. -/
def run_sql_query (env : SqlEnv) (sql_query : String) : String :=
  match execute_read_only_sql env sql_query with
  | .error msg => "EXECUTION_FAILED: " ++ msg
  | .rows rows count => if count == 0 then emptyResultMsg else renderRows rows

/-- `tool_result.startswith("EXECUTION_FAILED")`. -/
def isFailedResult (s : String) : Bool := pyStartsWith s "EXECUTION_FAILED"

/-- `tool_result.startswith("EMPTY_RESULT")`. -/
def isEmptyResult (s : String) : Bool := pyStartsWith s "EMPTY_RESULT"

/-- The store collaborators the agent dispatches tool calls to: the SQL
guard environment, and `search_similar_traces` =
`json.dumps(store.search_similar_experiences(query, min_rating, limit))`
as an oracle string. -/
structure LibEnv where
  sqlEnv : SqlEnv
  simSearch : String → Int → Nat → String

/-- Ghost instrumentation: the tool executions a `query` run performs, in
order.  (Not part of the source; used to state run-level properties.) -/
inductive ToolEvent where
  | sqlCall (query result : String)
  | simCall (query : String) (min_rating : Int) (limit : Nat) (result : String)
  | unknownCall (name : String)
deriving Repr, DecidableEq

/-- Whether an event is a `run_sql_query` execution that returned the
`EMPTY_RESULT` sentinel. -/
def isEmptySqlEvent : ToolEvent → Bool
  | .sqlCall _ r => isEmptyResult r
  | _ => false

/-- `str(content)` as interpolated into `_format_history` prompts
(semantically inert: consumed only by the provider oracle). -/
def renderContent : MsgContent → String
  | .text s => s
  | .result a =>
      "\x7b'answer': '" ++ a.answer ++ "', 'suggestions': [" ++
        String.intercalate ", " (a.suggestions.map (fun s =>
          "\x7b'label': '" ++ s.1 ++ "', 'value': '" ++ s.2 ++ "'\x7d")) ++
        "], 'sources': [" ++
        String.intercalate ", " (a.sources.map (fun s => "'" ++ s ++ "'")) ++
        "]\x7d"
  | .answerOnly s => "\x7b'answer': '" ++ s ++ "'\x7d"

/-- `LibrarianAgent._format_history`. -/
def format_history (history : List (String × MsgContent)) : String :=
  if history == [] then "None"
  else String.intercalate "\n"
    (history.map (fun item => item.1 ++ ": " ++ renderContent item.2))

/-- The prompt built from SQL results in the non-tool path. -/
def sqlResultsPrompt (tool_result : String) : String :=
  "Here are the SQL results (JSON). Provide a JSON answer with keys answer, suggestions, sources:\n" ++ tool_result

/-- The re-prompt of the non-tool path after a failed execution. -/
def sqlFailedPromptNoTools (tool_result : String) : String :=
  "SQL execution failed. Here is the database error message. Fix the SQL and output a new SELECT query only.\nERROR: " ++ tool_result

/-- The re-prompt of the tool path after a failed execution. -/
def sqlFailedPromptTools (tool_result : String) : String :=
  "The SQL query failed. Use the error message to fix the query. Return a corrected SQL query only.\nERROR: " ++ tool_result

/-- The fixed fallback answer of the exhausted non-tool loop. -/
def sqlFallbackMsg : String :=
  "Unable to generate a valid SQL query. Please refine the question."

/-- The fixed answer returned when no provider is available. -/
def unavailableAnswer : AnswerObj :=
  { answer := "Librarian is not available. Check provider configuration and API keys."
    suggestions := []
    sources := [] }

/-- Build the final parsed dictionary with the fallback
`{"answer": answer_text, "suggestions": [], "sources": None}` applied
when `_extract_json` raises. -/
def parseOrRaw (utils : TextUtils) (answer_text : String) : ParsedDict :=
  match utils.extractJson answer_text with
  | some d => d
  | none => { answer := answer_text, suggestionsRaw := some [], sourcesRaw := none }

/-- The common tail of both answer paths:
`answer = str(parsed.get("answer", "")).strip() or "No response."`, then
suggestion/source normalization. -/
def finishAnswer (utils : TextUtils) (parsed : ParsedDict) : AnswerObj :=
  let answer := if pyStrip parsed.answer == "" then "No response." else pyStrip parsed.answer
  { answer := answer
    suggestions := normalize_suggestions parsed.suggestionsRaw
    sources := normalize_sources utils parsed.sourcesRaw answer }

/-- Answer synthesis of the tool path: parse the final reply, and if the
(answer or raw reply) still contains an extractable SELECT, issue one
corrective exchange and re-parse. -/
def synthesizeAnswer (p : Provider) (utils : TextUtils)
    (session : Transcript) (response : ProviderResponse) : AnswerObj :=
  let answer_text := response.text
  let parsed := parseOrRaw utils answer_text
  let target := if parsed.answer == "" then answer_text else parsed.answer
  if (truthyStr (utils.extractSql target)).isSome then
    let pr := p.send_user_message session
      "Do not return SQL. Summarize the findings in natural language and return JSON only."
    finishAnswer utils (parseOrRaw utils pr.2.text)
  else
    finishAnswer utils parsed

/-- Outcome of the non-tool SELECT-extraction loop. -/
inductive NoToolsOut where
  | answered (result : AnswerObj) (store : ChatStore) (events : List ToolEvent)
  | exhausted (store : ChatStore) (events : List ToolEvent)

/-- The non-tool path's bounded loop (`for _ in range(3)` in `query`):
ask for a SELECT, extract it, execute it through the guard; re-prompt on
extraction or execution failure, abstain immediately on a zero-row
result, otherwise ask for the final JSON answer and persist it. -/
def noToolsLoop (p : Provider) (utils : TextUtils) (env : LibEnv)
    (sid user_query history_text : String) :
    Nat → Transcript → String → ChatStore → List ToolEvent → NoToolsOut
  | 0, _, _, store, events => .exhausted store events
  | fuel + 1, session, prompt, store, events =>
      let pr := p.send_user_message session prompt
      match truthyStr (utils.extractSql pr.2.text) with
      | none =>
          noToolsLoop p utils env sid user_query history_text fuel pr.1
            "Failed to parse SQL. Please output a single SELECT query." store events
      | some sql_query =>
          let tool_result := run_sql_query env.sqlEnv sql_query
          let events2 := events ++ [ToolEvent.sqlCall sql_query tool_result]
          if isFailedResult tool_result then
            noToolsLoop p utils env sid user_query history_text fuel pr.1
              (sqlFailedPromptNoTools tool_result) store events2
          else if isEmptyResult tool_result then
            let result := abstain_response_from_llm p utils user_query history_text
            .answered result
              (save_chat_message store sid "assistant" (.result result)) events2
          else
            let pr2 := p.send_user_message pr.1 (sqlResultsPrompt tool_result)
            let result := finishAnswer utils (parseOrRaw utils pr2.2.text)
            .answered result
              (save_chat_message store sid "assistant" (.result result)) events2

/-- State of the tool-calling loop. -/
structure ToolLoopSt where
  session : Transcript
  response : ProviderResponse
  store : ChatStore
  lastSqlResult : Option String
  sawSqlResult : Bool
  events : List ToolEvent

/-- Outcome of one batch of tool calls. -/
inductive BatchOut where
  | cont (st : ToolLoopSt)
  | answered (result : AnswerObj) (store : ChatStore) (events : List ToolEvent)

/-- Process the tool calls of one provider response in order: dispatch to
the guard or similarity search, persist the raw exchange as a tool-role
message, feed the result back; a failed `run_sql_query` breaks the batch
after a corrective prompt, a zero-row `run_sql_query` abstains and
returns immediately. -/
def processBatch (p : Provider) (utils : TextUtils) (env : LibEnv)
    (sid user_query history_text : String) :
    List ToolCall → ToolLoopSt → BatchOut
  | [], st => .cont st
  | call :: rest, st =>
      if call.name == "run_sql_query" then
        let sql_query := call.argQuery
        let tool_result := run_sql_query env.sqlEnv sql_query
        let keep := !isFailedResult tool_result && !isEmptyResult tool_result
        let last2 := if keep then some tool_result else st.lastSqlResult
        let saw2 := if keep then true else st.sawSqlResult
        let store2 := save_chat_message st.store sid "tool"
          (.text ("SQL: " ++ sql_query ++ "\nRESULT: " ++ tool_result))
        let events2 := st.events ++ [ToolEvent.sqlCall sql_query tool_result]
        let pr := p.send_tool_result st.session call.name tool_result call.id
        if isFailedResult tool_result then
          let pr2 := p.send_user_message pr.1 (sqlFailedPromptTools tool_result)
          .cont { session := pr2.1, response := pr2.2, store := store2,
                  lastSqlResult := last2, sawSqlResult := saw2, events := events2 }
        else if isEmptyResult tool_result then
          let result := abstain_response_from_llm p utils user_query history_text
          .answered result
            (save_chat_message store2 sid "assistant" (.result result)) events2
        else
          processBatch p utils env sid user_query history_text rest
            { session := pr.1, response := pr.2, store := store2,
              lastSqlResult := last2, sawSqlResult := saw2, events := events2 }
      else if call.name == "search_similar_traces" then
        let q := call.argQuery
        let tool_result := env.simSearch q call.argMinRating call.argLimit
        let store2 := save_chat_message st.store sid "tool"
          (.text ("SEARCH: " ++ q ++ "\nRESULT: " ++ tool_result))
        let events2 := st.events ++
          [ToolEvent.simCall q call.argMinRating call.argLimit tool_result]
        let pr := p.send_tool_result st.session call.name tool_result call.id
        processBatch p utils env sid user_query history_text rest
          { st with session := pr.1, response := pr.2, store := store2,
                    events := events2 }
      else
        let pr := p.send_tool_result st.session call.name "UNKNOWN_TOOL" call.id
        processBatch p utils env sid user_query history_text rest
          { st with session := pr.1, response := pr.2,
                    events := st.events ++ [ToolEvent.unknownCall call.name] }

/-- The tool path's bounded loop (`for _ in range(3)` in `query`): stop
as soon as a response carries no tool calls, otherwise process the
batch. -/
def toolLoop (p : Provider) (utils : TextUtils) (env : LibEnv)
    (sid user_query history_text : String) :
    Nat → ToolLoopSt → Sum ToolLoopSt (AnswerObj × ChatStore × List ToolEvent)
  | 0, st => .inl st
  | fuel + 1, st =>
      if st.response.calls == [] then .inl st
      else
        match processBatch p utils env sid user_query history_text
            st.response.calls st with
        | .answered r s e => .inr (r, s, e)
        | .cont st2 => toolLoop p utils env sid user_query history_text fuel st2

/-- `LibrarianAgent.query(user_query, session_id)`, returning the result
object, the final chat store, and the ghost tool-event log.  The
availability flag (`LIBRARIAN_AVAILABLE`) and the selected provider are
parameters. -/
def LibrarianAgent.query (available : Bool) (p : Provider)
    (utils : TextUtils) (env : LibEnv) (store : ChatStore)
    (user_query session_id : String) :
    AnswerObj × ChatStore × List ToolEvent :=
  if !available then
    (unavailableAnswer, store, [])
  else
    let history := get_chat_history store session_id
    let history_text := format_history history
    let store1 := save_chat_message store session_id "user" (.text user_query)
    let user_content := queryUserContent history_text user_query
    if !p.supports_tools then
      let session := p.start_chat librarianSystemPrompt []
      let prompt := user_content ++
        "\n\nProvide a SQL SELECT query only (or JSON with key 'sql')."
      match noToolsLoop p utils env session_id user_query history_text 3
          session prompt store1 [] with
      | .answered r s e => (r, s, e)
      | .exhausted s e =>
          ({ answer := sqlFallbackMsg, suggestions := [], sources := [] },
            save_chat_message s session_id "assistant" (.answerOnly sqlFallbackMsg),
            e)
    else
      let session := p.start_chat librarianSystemPrompt librarianTools
      let pr := p.send_user_message session user_content
      match toolLoop p utils env session_id user_query history_text 3
          { session := pr.1, response := pr.2, store := store1,
            lastSqlResult := none, sawSqlResult := false, events := [] } with
      | .inr done => done
      | .inl st =>
          let prF :=
            if st.sawSqlResult &&
                (match st.lastSqlResult with
                 | some r => r != ""
                 | none => false) then
              p.send_user_message st.session
                ("Using the SQL results below, return ONLY a JSON object with keys answer, suggestions, sources. The answer must be a natural language summary.\nSQL_RESULTS: " ++
                  st.lastSqlResult.getD "")
            else (st.session, st.response)
          let result := synthesizeAnswer p utils prF.1 prF.2
          (result,
            save_chat_message st.store session_id "assistant" (.result result),
            st.events)

/-- No event of the list is a zero-row `run_sql_query` execution. -/
def noEmptyEvents (es : List ToolEvent) : Prop :=
  ∀ e ∈ es, isEmptySqlEvent e = false

/-- Run-level invariant of one batch of tool calls, relative to the event
log `base` at entry: either the batch continues with only
non-empty-result events appended, or it returned — and then the result
is the abstain response, it was persisted as a final assistant message,
and the event log ends at the zero-row execution that triggered it. -/
def batchOutOk (p : Provider) (utils : TextUtils) (sid uq ht : String)
    (base : List ToolEvent) : BatchOut → Prop
  | .cont st2 => ∃ new, st2.events = base ++ new ∧ noEmptyEvents new
  | .answered r s e =>
      r = abstain_response_from_llm p utils uq ht ∧
      (∃ st3, s = save_chat_message st3 sid "assistant" (.result r)) ∧
      ∃ new q rr, noEmptyEvents new ∧ isEmptyResult rr = true ∧
        e = base ++ (new ++ [ToolEvent.sqlCall q rr])

/-- The same invariant lifted to the bounded tool loop. -/
def loopOutOk (p : Provider) (utils : TextUtils) (sid uq ht : String)
    (base : List ToolEvent) :
    Sum ToolLoopSt (AnswerObj × ChatStore × List ToolEvent) → Prop
  | .inl st2 => ∃ new, st2.events = base ++ new ∧ noEmptyEvents new
  | .inr rse =>
      rse.1 = abstain_response_from_llm p utils uq ht ∧
      (∃ st3, rse.2.1 = save_chat_message st3 sid "assistant" (.result rse.1)) ∧
      ∃ new q rr, noEmptyEvents new ∧ isEmptyResult rr = true ∧
        rse.2.2 = base ++ (new ++ [ToolEvent.sqlCall q rr])

/-- Run-level invariant of the non-tool loop: an answer produced from SQL
results or exhaustion appends only non-empty-result events; a zero-row
execution produces the abstain response, persists it as a final
assistant message, and ends the event log at that execution. -/
def noToolsOutOk (p : Provider) (utils : TextUtils) (sid uq ht : String)
    (base : List ToolEvent) : NoToolsOut → Prop
  | .answered r s e =>
      (∃ new, e = base ++ new ∧ noEmptyEvents new ∧
        ∃ st3, s = save_chat_message st3 sid "assistant" (.result r)) ∨
      (r = abstain_response_from_llm p utils uq ht ∧
        (∃ st3, s = save_chat_message st3 sid "assistant" (.result r)) ∧
        ∃ new q rr, noEmptyEvents new ∧ isEmptyResult rr = true ∧
          e = base ++ (new ++ [ToolEvent.sqlCall q rr]))
  | .exhausted _ e => ∃ new, e = base ++ new ∧ noEmptyEvents new

/-! ## HTTP endpoint (`toolbrain_tracing/api/v1/endpoints.py`,
`natural_language_query`) -/

/-- One element of the agent result's `sources` value: a string, or a
dictionary read through `item.get("id")` / `item.get("trace_id")`. -/
inductive SourceItem where
  | str (v : String)
  | dict (idVal : Option String) (traceIdVal : Option String)
deriving Repr, DecidableEq

/-- The agent result's `sources` value: `None`, a list, or any other
(scalar) value. -/
inductive SourcesVal where
  | noneVal
  | list (items : List SourceItem)
  | scalar (v : String)
deriving Repr, DecidableEq

/-- The dictionary returned by `agent.query`, as read by the endpoint. -/
structure AgentResult where
  answer : String
  suggestions : List Suggestion
  sources : SourcesVal
deriving Repr, DecidableEq

/-- Outcome of the `agent.query` call: a result dictionary, or an
exception with message `str(e)`. -/
inductive AgentOutcome where
  | ok (r : AgentResult)
  | raised (msg : String)

/-- The endpoint's `NaturalLanguageResponse` payload. -/
structure NLResponse where
  answer : String
  session_id : String
  suggestions : List Suggestion
  sources : Option (List String)
deriving Repr, DecidableEq

/-- `item.get("id") or item.get("trace_id")` with Python truthiness, kept
only `if value`. -/
def firstTruthy (a b : Option String) : Option String :=
  match truthyStr a with
  | some v => some v
  | none => truthyStr b

/-- The endpoint's sources normalization. -/
def normalizeEndpointSources : SourcesVal → Option (List String)
  | .noneVal => none
  | .list items =>
      some (items.filterMap (fun it =>
        match it with
        | .str v => some v
        | .dict i t => firstTruthy i t))
  | .scalar v => some [v]

/-- `query.session_id or str(uuid.uuid4())`: the caller-supplied id when
it is truthy (present and non-empty), else the freshly generated id. -/
def resolveSessionId (fresh : String) (session_id : Option String) : String :=
  match session_id with
  | some s => if s != "" then s else fresh
  | none => fresh

/-- `natural_language_query(query)`: availability check, agent call, and
the three return branches.  `fresh` is the `uuid.uuid4()` draw, `agent`
the (possibly raising) `agent.query` call. -/
def natural_language_query (available : Bool) (fresh : String)
    (agent : String → String → AgentOutcome) (q : String)
    (session_id : Option String) : NLResponse :=
  let sid := resolveSessionId fresh session_id
  if !available then
    { answer := "Librarian is not available. Please check LLM provider configuration and API keys."
      session_id := sid, suggestions := [], sources := none }
  else
    match agent q sid with
    | .ok r =>
        { answer := r.answer, session_id := sid, suggestions := r.suggestions,
          sources := normalizeEndpointSources r.sources }
    | .raised msg =>
        { answer := "Sorry, I encountered an error processing your query: " ++
            msg ++ "\n\nPlease try rephrasing your question or check the server logs."
          session_id := sid, suggestions := [], sources := none }

/-! ### Concrete librarian/endpoint instances for counterexamples and
witnesses -/

/-- A provider call requesting `run_sql_query`. -/
def alwaysToolCall : ToolCall :=
  { name := "run_sql_query", argQuery := "SELECT id FROM traces",
    argMinRating := 4, argLimit := 3, id := none }

/-- The constant response carrying that tool call and empty text. -/
def alwaysToolResponse : ProviderResponse :=
  { text := "", calls := [alwaysToolCall] }

/-- A tool-capable provider that answers every exchange with another
`run_sql_query` tool call and never produces final text. -/
def alwaysToolProvider : Provider :=
  { supports_tools := true, respond := fun _ => alwaysToolResponse }

/-- A provider without tool support that never emits extractable SQL. -/
def plainChatProvider : Provider :=
  { supports_tools := false
    respond := fun _ => { text := "I cannot find the table.", calls := [] } }

/-- Text utilities that fail on every input; they agree with the real
helpers at every point evaluated in the concrete runs below (the real
`_extract_json` raises on empty/plain text, `_extract_sql` yields no
SELECT from them, `_extract_sources` finds no 32-hex ids). -/
def noneUtils : TextUtils :=
  { extractJson := fun _ => none
    extractSql := fun _ => none
    extractSources := fun _ => none }

/-- Guard environment: every query parses as a single SELECT and returns
one row. -/
def okRowEnv : SqlEnv :=
  { parse := fun _ => ["SELECT"], exec := fun _ => .ok [[("id", "a1")]] }

/-- Guard environment: every query parses as a single SELECT and returns
zero rows. -/
def emptyRowEnv : SqlEnv :=
  { parse := fun _ => ["SELECT"], exec := fun _ => .ok [] }

/-- Librarian environment over `okRowEnv`. -/
def okLibEnv : LibEnv := { sqlEnv := okRowEnv, simSearch := fun _ _ _ => "[]" }

/-- Librarian environment over `emptyRowEnv`. -/
def emptyLibEnv : LibEnv :=
  { sqlEnv := emptyRowEnv, simSearch := fun _ _ _ => "[]" }

/-- An agent outcome used to exercise the endpoint's success branch. -/
def okAgent : String → String → AgentOutcome :=
  fun _ _ => .ok { answer := "done", suggestions := [], sources := .noneVal }

/-! ### C1 -/

/-- C1 counterexample.  The claim states that every input string whose
top-level statement type is not a single SELECT is rejected with a
parsing-error result and never reaches the database.  The guard, however,
only inspects the type of the *first* parsed statement
(`parsed[0].get_type() != "SELECT"`), so an input that `sqlparse` splits
into a SELECT statement followed by a DELETE statement — not a single
SELECT — passes validation, reaches the database, and yields a row result
rather than a parsing error. -/
theorem guard_multi_statement_not_rejected :
    multiStmtEnv.parse "SELECT 1; DELETE FROM traces" ≠ ["SELECT"] ∧
    dbTouched multiStmtEnv "SELECT 1; DELETE FROM traces" = true ∧
    execute_read_only_sql multiStmtEnv "SELECT 1; DELETE FROM traces" =
      .rows [[("id", "t1")]] 1 := by
  refine ⟨by decide, rfl, rfl⟩

/-- C1 (amended): for every input whose *first* parsed statement is not of
type SELECT (in particular whenever nothing parses at all), the guard
returns the fixed parsing-error result and the database is never touched —
no statement is executed, so no stored Trace, Span, or ChatMessage can be
mutated by the call. -/
theorem guard_rejects_non_select_head (env : SqlEnv) (query : String)
    (row_limit : Nat)
    (h : (env.parse query).head? ≠ some "SELECT") :
    execute_read_only_sql env query row_limit = .error parsingErrorMsg ∧
    dbTouched env query = false := by
  have hb : guardAccepts env query = false := by
    simp [guardAccepts, h]
  constructor
  · simp [execute_read_only_sql, hb]
  · simp [dbTouched, hb]

/-- Witness for `guard_rejects_non_select_head` at a concrete DELETE
statement. -/
theorem guard_rejects_non_select_head_witness :
    execute_read_only_sql deleteStmtEnv "DELETE FROM traces" 100 =
      .error parsingErrorMsg ∧
    dbTouched deleteStmtEnv "DELETE FROM traces" = false :=
  guard_rejects_non_select_head deleteStmtEnv "DELETE FROM traces" 100
    (by decide)

/-! ### C5 -/

/-- C5: whenever `execute_read_only_sql` returns a row result (i.e. the
query was accepted and executed without fault), at most `row_limit` rows
were fetched and the `count` field equals the length of the returned
`rows` list.  The declared default of `row_limit` is 100. -/
theorem guard_row_limit_and_count (env : SqlEnv) (query : String)
    (row_limit : Nat) (rs : List Row) (c : Nat)
    (h : execute_read_only_sql env query row_limit = .rows rs c) :
    rs.length ≤ row_limit ∧ c = rs.length ∧
    execute_read_only_sql env query = execute_read_only_sql env query 100 := by
  unfold execute_read_only_sql at h
  by_cases hg : guardAccepts env query
  · simp only [hg, not_true_eq_false, if_false] at h
    cases hex : env.exec query <;> rw [hex] at h
    · simp only at h
      injection h with h1 h2
      subst h1; subst h2
      exact ⟨List.length_take_le _ _, rfl, rfl⟩
    all_goals exact absurd h (by simp)
  · simp [hg] at h

/-- Witness for `guard_row_limit_and_count`: the three-row environment with
a row limit of 2 returns two rows and count 2. -/
theorem guard_row_limit_and_count_witness :
    [[("id", "a")], [("id", "b")]].length ≤ 2 ∧
    (2 : Nat) = [[(("id" : String), ("a" : String))], [("id", "b")]].length ∧
    execute_read_only_sql threeRowEnv "SELECT id FROM traces" =
      execute_read_only_sql threeRowEnv "SELECT id FROM traces" 100 :=
  guard_row_limit_and_count threeRowEnv "SELECT id FROM traces" 2
    [[("id", "a")], [("id", "b")]] 2 (by decide)

/-! ### C6 -/

/-- C6 counterexample.  The claim states the timed-out error result is
distinct from the error result of every other execution fault.  But the
timeout message is itself of the shape `"SQL Execution Error: <body>"`,
the same formatting used for `ProgrammingError` results, so an engine
fault of kind `ProgrammingError` whose message text coincides with the
timeout body produces the *same* error result as a genuine timeout. -/
theorem guard_timeout_result_collision :
    collidingProgErrEnv.exec "SELECT 1" = .programmingError timeoutBody ∧
    collidingProgErrEnv.exec "SELECT 1" ≠ .timeout ∧
    execute_read_only_sql collidingProgErrEnv "SELECT 1" =
      execute_read_only_sql timeoutEnv "SELECT 1" := by
  refine ⟨rfl, by decide, ?_⟩
  have h1 : execute_read_only_sql collidingProgErrEnv "SELECT 1" =
      .error ("SQL Execution Error: " ++ timeoutBody) := rfl
  have h2 : execute_read_only_sql timeoutEnv "SELECT 1" = .error timeoutMsg := rfl
  rw [h1, h2]
  decide

/-- C6 (amended): on an accepted query, an engine timeout yields the fixed
dedicated timed-out error result; that result differs from the
generic unexpected-fault result, and from any `ProgrammingError` result
whose engine message is not itself exactly the timeout body; and every
execution fault is converted to a returned result — the call always
returns either rows or an error, never raising. -/
theorem guard_timeout_dedicated (env : SqlEnv) (query : String)
    (row_limit : Nat) (h : guardAccepts env query = true) :
    (env.exec query = .timeout →
      execute_read_only_sql env query row_limit = .error timeoutMsg) ∧
    (env.exec query = .otherError →
      execute_read_only_sql env query row_limit = .error unexpectedErrorMsg ∧
        unexpectedErrorMsg ≠ timeoutMsg) ∧
    (∀ m, env.exec query = .programmingError m →
      execute_read_only_sql env query row_limit =
        .error ("SQL Execution Error: " ++ m) ∧
      (m ≠ timeoutBody → "SQL Execution Error: " ++ m ≠ timeoutMsg)) ∧
    ((∃ rs c, execute_read_only_sql env query row_limit = .rows rs c) ∨
      (∃ msg, execute_read_only_sql env query row_limit = .error msg)) := by
  refine ⟨?_, ?_, ?_, ?_⟩
  · intro hex; simp [execute_read_only_sql, h, hex]
  · intro hex
    refine ⟨by simp [execute_read_only_sql, h, hex], by decide⟩
  · intro m hex
    refine ⟨by simp [execute_read_only_sql, h, hex], ?_⟩
    intro hm hcontra
    apply hm
    have : "SQL Execution Error: " ++ m = "SQL Execution Error: " ++ timeoutBody := hcontra
    have hdata : ("SQL Execution Error: " ++ m).data =
        ("SQL Execution Error: " ++ timeoutBody).data := congrArg String.data this
    simp only [String.data_append] at hdata
    have := List.append_cancel_left hdata
    exact String.ext this
  · unfold execute_read_only_sql
    simp only [h, not_true_eq_false, if_false]
    cases env.exec query with
    | ok rows => exact Or.inl ⟨_, _, rfl⟩
    | timeout => exact Or.inr ⟨_, rfl⟩
    | programmingError m => exact Or.inr ⟨_, rfl⟩
    | otherError => exact Or.inr ⟨_, rfl⟩

/-- Witness for `guard_timeout_dedicated`: in the timeout environment the
dedicated message is returned. -/
theorem guard_timeout_dedicated_witness :
    execute_read_only_sql timeoutEnv "SELECT 1" 100 = .error timeoutMsg :=
  (guard_timeout_dedicated timeoutEnv "SELECT 1" 100 (by decide)).1 rfl

/-! ### C7 -/

/-- Saving one message extends a session's history by exactly that
message's role/content when the session matches, and leaves it unchanged
otherwise. -/
theorem get_chat_history_save (st : ChatStore) (sid sid2 role : String)
    (content : MsgContent) :
    get_chat_history (save_chat_message st sid2 role content) sid =
      get_chat_history st sid ++
        (if sid2 == sid then [(role, content)] else []) := by
  by_cases h : sid2 == sid <;>
    simp [get_chat_history, save_chat_message, List.filter_append, h]

/-- C7: applying any sequence of `save_chat_message` calls only appends to
the message log (earlier messages are never mutated or reordered), and
reading a session's history afterwards returns exactly the previously
visible history followed by the newly saved messages of that session, in
insertion order, with each role and content preserved exactly.
Instantiated at the empty store this is the round-trip property: saving
then loading returns exactly the saved messages. -/
theorem chat_history_round_trip (st : ChatStore) (ops : List ChatMsg)
    (sid : String) :
    (applySaves st ops).messages = st.messages ++ ops ∧
    get_chat_history (applySaves st ops) sid =
      get_chat_history st sid ++
        (ops.filter (fun m => m.session_id == sid)).map
          (fun m => (m.role, m.content)) := by
  induction ops generalizing st with
  | nil => simp [applySaves]
  | cons m rest ih =>
    have hstep : applySaves st (m :: rest) =
        applySaves (save_chat_message st m.session_id m.role m.content) rest := by
      simp [applySaves]
    rcases ih (save_chat_message st m.session_id m.role m.content) with ⟨h1, h2⟩
    constructor
    · rw [hstep, h1]
      simp [save_chat_message]
    · rw [hstep, h2, get_chat_history_save]
      by_cases h : m.session_id == sid <;> simp [List.filter_cons, h]

/-! ### C4 -/

/-- Membership is preserved by `insertByLe`. -/
theorem mem_insertByLe {α : Type} (le : α → α → Bool) (x a : α)
    (l : List α) : a ∈ insertByLe le x l ↔ a = x ∨ a ∈ l := by
  induction l with
  | nil => simp [insertByLe]
  | cons y ys ih =>
    by_cases h : le x y
    · simp [insertByLe, h, ih]
    · simp [insertByLe, h, ih]
      tauto

/-- Membership is preserved by `sortByLe`. -/
theorem mem_sortByLe {α : Type} (le : α → α → Bool) (a : α) (l : List α) :
    a ∈ sortByLe le l ↔ a ∈ l := by
  induction l with
  | nil => simp [sortByLe]
  | cons x xs ih => simp [sortByLe, mem_insertByLe, ih]

/-- `insertByLe` preserves sortedness for a total transitive comparison. -/
theorem pairwise_insertByLe {α : Type} (le : α → α → Bool)
    (htot : ∀ a b, le a b = true ∨ le b a = true)
    (htrans : ∀ a b c, le a b = true → le b c = true → le a c = true)
    (x : α) (l : List α) (hl : l.Pairwise (fun a b => le a b = true)) :
    (insertByLe le x l).Pairwise (fun a b => le a b = true) := by
  induction l with
  | nil => simp [insertByLe]
  | cons y ys ih =>
    rcases List.pairwise_cons.mp hl with ⟨hy, hys⟩
    by_cases h : le x y = true
    · rw [insertByLe, if_pos h]
      refine List.pairwise_cons.mpr ⟨?_, hl⟩
      intro b hb
      rcases List.mem_cons.mp hb with hb1 | hb2
      · subst hb1; exact h
      · exact htrans x y b h (hy b hb2)
    · rw [insertByLe, if_neg h]
      refine List.pairwise_cons.mpr ⟨?_, ih hys⟩
      intro b hb
      rcases (mem_insertByLe le x b ys).mp hb with hbx | hbys
      · rcases htot x y with hxy | hyx
        · exact absurd hxy h
        · rw [hbx]; exact hyx
      · exact hy b hbys

/-- `sortByLe` produces a sorted list for a total transitive comparison. -/
theorem pairwise_sortByLe {α : Type} (le : α → α → Bool)
    (htot : ∀ a b, le a b = true ∨ le b a = true)
    (htrans : ∀ a b c, le a b = true → le b c = true → le a c = true)
    (l : List α) :
    (sortByLe le l).Pairwise (fun a b => le a b = true) := by
  induction l with
  | nil => simp [sortByLe]
  | cons x xs ih => exact pairwise_insertByLe le htot htrans x _ ih

/-- C4: every entry returned by `search_similar_experiences` comes from a
stored trace with a non-null embedding, with feedback present, and with a
feedback rating at least `min_rating` (that rating is the entry's
`rating`); the list is ordered by descending similarity score
(equivalently ascending vector distance, `score = 1 - distance`); and its
length is at most `limit`. -/
theorem similarity_search_filter_order_limit (env : VectorEnv)
    (db : List StoredTrace) (is_sqlite : Bool)
    (embedOf : String → List Int) (text : String) (min_rating : Int)
    (limit : Nat) :
    (∀ e ∈ search_similar_experiences env db is_sqlite embedOf text
        min_rating limit,
      ∃ t ∈ db, e.trace_id = t.id ∧ t.embedding.isSome = true ∧
        ∃ fb, t.feedback = some fb ∧
          ∃ r, fb.rating = some r ∧ min_rating ≤ r ∧ e.rating = some r) ∧
    (search_similar_experiences env db is_sqlite embedOf text min_rating
      limit).length ≤ limit ∧
    (search_similar_experiences env db is_sqlite embedOf text min_rating
      limit).Pairwise (fun a b =>
        ∃ x y, a.score = some x ∧ b.score = some y ∧ y ≤ x) := by
  unfold search_similar_experiences
  by_cases h1 : (is_sqlite || text == "") = true
  · simp [h1]
  · simp only [h1, if_false]
    by_cases h2 : (embedOf text == []) = true
    · simp [h2]
    · simp only [h2, if_false]
      set emb := embedOf text with hemb
      set le := fun a b =>
        decide (traceDist env emb a ≤ traceDist env emb b) with hle
      set ranked := sortByLe le (db.filter (passesSimilarityFilter min_rating))
        with hranked
      refine ⟨?_, ?_, ?_⟩
      · intro e he
        rcases List.mem_map.mp he with ⟨t, ht, hte⟩
        have htr : t ∈ ranked := List.mem_of_mem_take ht
        have htf : t ∈ db.filter (passesSimilarityFilter min_rating) :=
          (mem_sortByLe le t _).mp htr
        have htdb : t ∈ db := List.mem_of_mem_filter htf
        have hpass : passesSimilarityFilter min_rating t = true :=
          List.of_mem_filter htf
        unfold passesSimilarityFilter at hpass
        rw [Bool.and_assoc, Bool.and_eq_true, Bool.and_eq_true] at hpass
        rcases hpass with ⟨hembed, hfb, hrate⟩
        rcases Option.isSome_iff_exists.mp hfb with ⟨fb, hfbeq⟩
        have hrof : ratingOf t = t.feedback.bind Feedback.rating := rfl
        cases hr : ratingOf t with
        | none => rw [hr] at hrate; simp at hrate
        | some r =>
          rw [hr] at hrate
          simp only [decide_eq_true_eq] at hrate
          refine ⟨t, htdb, ?_, hembed, fb, hfbeq, r, ?_, hrate, ?_⟩
          · rw [← hte]
          · rw [hrof, hfbeq] at hr
            simpa using hr
          · rw [← hte]
            simpa using hr
      · calc (List.map _ (ranked.take limit)).length
            = (ranked.take limit).length := List.length_map _ _
          _ ≤ limit := List.length_take_le _ _
      · have hsorted : ranked.Pairwise (fun a b => le a b = true) := by
          rw [hranked]
          refine pairwise_sortByLe le ?_ ?_ _
          · intro a b
            simp only [hle, decide_eq_true_eq]
            omega
          · intro a b c
            simp only [hle, decide_eq_true_eq]
            omega
        have htake : (ranked.take limit).Pairwise (fun a b => le a b = true) :=
          hsorted.sublist (List.take_sublist _ _)
        refine (List.pairwise_map).mpr ?_
        refine htake.imp ?_
        intro a b hab
        simp only [hle, decide_eq_true_eq] at hab
        exact ⟨1 - traceDist env emb a, 1 - traceDist env emb b, rfl, rfl,
          by omega⟩

/-! ### C9 -/

/-- C9: `search_similar_experiences` returns the empty list (and, being a
total function of its inputs, cannot raise) whenever the backend lacks
vector-search support (SQLite) or the embedding provider fails and yields
an empty vector for the query text. -/
theorem similarity_search_noop_without_support (env : VectorEnv)
    (db : List StoredTrace) (is_sqlite : Bool)
    (embedOf : String → List Int) (text : String) (min_rating : Int)
    (limit : Nat)
    (h : is_sqlite = true ∨ embedOf text = []) :
    search_similar_experiences env db is_sqlite embedOf text min_rating
      limit = [] := by
  rcases h with h | h <;> simp [search_similar_experiences, h]

/-- Witness for `similarity_search_noop_without_support`: a non-SQLite
backend whose local embedding model failed to load (so
`LocalEmbeddingProvider.get_embedding` returns `[]`) yields no results
even though a qualifying trace is stored. -/
theorem similarity_search_noop_without_support_witness :
    search_similar_experiences zeroVectorEnv [sampleTrace] false
      (localGetEmbedding none) "find failing tool runs" 4 3 = [] :=
  similarity_search_noop_without_support zeroVectorEnv [sampleTrace] false
    (localGetEmbedding none) "find failing tool runs" 4 3 (Or.inr rfl)

/-! ### C10 -/

/-- C10: when no provider is available, `LibrarianAgent.query` returns
the fixed unavailability answer with empty suggestions and sources
before any store interaction: the returned store is the input store
(neither the user message nor an assistant message is persisted) and no
tool executes. -/
theorem librarian_unavailable_leaves_store_unchanged (p : Provider)
    (utils : TextUtils) (env : LibEnv) (store : ChatStore)
    (user_query session_id : String) :
    LibrarianAgent.query false p utils env store user_query session_id =
      (unavailableAnswer, store, []) ∧
    unavailableAnswer.answer =
      "Librarian is not available. Check provider configuration and API keys." ∧
    unavailableAnswer.suggestions = [] ∧
    unavailableAnswer.sources = [] :=
  ⟨rfl, rfl, rfl, rfl⟩

/-! ### C2 -/

/-- C2 counterexample.  The claim states that a tool-capable provider
returning tool calls on every exchange for all 3 iterations yields the
fixed fallback "unable to generate a valid query; please refine the
question" verbatim.  In the tool-calling path, however, exhausting the
3 iterations falls through to answer synthesis from the provider's last
response instead of any fallback: with a provider that always requests
`run_sql_query` and carries empty text, the returned answer is
"No response." — neither the claimed string nor even the code's own
fallback constant (which lives only in the non-tool path and reads
"Unable to generate a valid SQL query. Please refine the question."). -/
theorem librarian_tool_loop_skips_fallback :
    alwaysToolProvider.supports_tools = true ∧
    alwaysToolProvider.respond = (fun _ => alwaysToolResponse) ∧
    alwaysToolResponse.calls = [alwaysToolCall] ∧
    (LibrarianAgent.query true alwaysToolProvider noneUtils okLibEnv
        ChatStore.empty "show failures" "sess-1").1 =
      { answer := "No response.", suggestions := [], sources := [] } ∧
    ("No response." : String) ≠
      "unable to generate a valid query; please refine the question" ∧
    ("No response." : String) ≠ sqlFallbackMsg := by
  refine ⟨rfl, rfl, rfl, by decide, by decide, by decide⟩

/-- If the provider's replies never contain an extractable SELECT, every
pass of the non-tool loop re-prompts without executing anything, so the
loop exhausts its fuel with store and events untouched. -/
theorem noToolsLoop_exhausts_without_sql (p : Provider) (utils : TextUtils)
    (env : LibEnv) (sid uq ht : String)
    (hsql : ∀ t : Transcript, utils.extractSql ((p.respond t).text) = none) :
    ∀ fuel session prompt st ev,
      noToolsLoop p utils env sid uq ht fuel session prompt st ev =
        .exhausted st ev := by
  intro fuel
  induction fuel with
  | zero => intro session prompt st ev; rfl
  | succ n ih =>
      intro session prompt st ev
      unfold noToolsLoop
      simp only [Provider.send_user_message, hsql, truthyStr]
      exact ih _ _ _ _

/-- C2 (amended): the fixed fallback applies to the *non-tool* path: for
every provider without tool support whose replies never contain an
extractable SELECT statement, all 3 iterations pass without a valid
query, and `query` returns the fixed fallback message "Unable to
generate a valid SQL query. Please refine the question." verbatim with
empty suggestions and sources, persisting it (as `{"answer": fallback}`)
as the assistant message after the user message. -/
theorem librarian_no_tools_exhausted_fallback (p : Provider)
    (utils : TextUtils) (env : LibEnv) (store : ChatStore) (uq sid : String)
    (hnt : p.supports_tools = false)
    (hsql : ∀ t : Transcript, utils.extractSql ((p.respond t).text) = none) :
    LibrarianAgent.query true p utils env store uq sid =
      ({ answer := sqlFallbackMsg, suggestions := [], sources := [] },
       save_chat_message (save_chat_message store sid "user" (.text uq)) sid
         "assistant" (.answerOnly sqlFallbackMsg),
       []) := by
  unfold LibrarianAgent.query
  simp only [hnt, Bool.not_true, Bool.not_false, if_true, if_false,
    noToolsLoop_exhausts_without_sql p utils env sid uq _ hsql]
  rfl

/-- Witness for `librarian_no_tools_exhausted_fallback` at a concrete
chat-only provider. -/
theorem librarian_no_tools_exhausted_fallback_witness :
    LibrarianAgent.query true plainChatProvider noneUtils okLibEnv
        ChatStore.empty "count traces" "sess-2" =
      ({ answer := sqlFallbackMsg, suggestions := [], sources := [] },
       save_chat_message
         (save_chat_message ChatStore.empty "sess-2" "user" (.text "count traces"))
         "sess-2" "assistant" (.answerOnly sqlFallbackMsg),
       []) :=
  librarian_no_tools_exhausted_fallback plainChatProvider noneUtils okLibEnv
    ChatStore.empty "count traces" "sess-2" rfl (fun _ => rfl)

/-! ### C3 — helper lemmas -/

/-- String append acts as list append on the underlying characters. -/
theorem string_data_append (a b : String) :
    (a ++ b).data = a.data ++ b.data := by
  cases a; cases b; rfl

/-- String append is associative. -/
theorem string_append_assoc (a b c : String) :
    a ++ b ++ c = a ++ (b ++ c) := by
  cases a with | mk la =>
  cases b with | mk lb =>
  cases c with | mk lc =>
  show String.mk ((la ++ lb) ++ lc) = String.mk (la ++ (lb ++ lc))
  rw [List.append_assoc]

/-- A string starts with itself prepended to anything. -/
theorem pyStartsWith_self_append (a m : String) :
    pyStartsWith (a ++ m) a = true := by
  unfold pyStartsWith
  rw [string_data_append]
  exact List.isPrefixOf_iff_prefix.mpr (List.prefix_append _ _)

/-- A prefix test that fails on `a` and fits inside `a` still fails on
`a ++ m`. -/
theorem pyStartsWith_append_of_le (a m p : String)
    (hlen : p.data.length ≤ a.data.length)
    (h : pyStartsWith a p = false) : pyStartsWith (a ++ m) p = false := by
  unfold pyStartsWith at h ⊢
  rw [string_data_append]
  by_contra hc
  rw [Bool.not_eq_false] at hc
  have hpre : p.data <+: a.data ++ m.data := List.isPrefixOf_iff_prefix.mp hc
  have hapre : a.data <+: a.data ++ m.data := List.prefix_append _ _
  have hpa : p.data <+: a.data :=
    List.prefix_of_prefix_length_le hpre hapre hlen
  have := List.isPrefixOf_iff_prefix.mpr hpa
  rw [h] at this
  exact Bool.false_ne_true this

/-- A prefix test fails when first characters differ. -/
theorem pyStartsWith_false_of_head_ne (s p : String) (c d : Char)
    (hs : s.data.head? = some c) (hp : p.data.head? = some d)
    (hne : (d == c) = false) : pyStartsWith s p = false := by
  unfold pyStartsWith
  cases hsd : s.data with
  | nil => rw [hsd] at hs; simp at hs
  | cons a as =>
      cases hpd : p.data with
      | nil => rw [hpd] at hp; simp at hp
      | cons b bs =>
          rw [hsd] at hs; rw [hpd] at hp
          simp only [List.head?_cons, Option.some.injEq] at hs hp
          subst hs; subst hp
          simp [List.isPrefixOf, hne]

/-- `json.dumps` output starts with a bracket. -/
theorem renderRows_head (rows : List Row) :
    (renderRows rows).data.head? = some '[' := by
  unfold renderRows
  rw [string_data_append]
  rfl

/-- A failed execution result carries the `EXECUTION_FAILED` prefix. -/
theorem isFailed_execFailed (m : String) :
    isFailedResult ("EXECUTION_FAILED: " ++ m) = true := by
  unfold isFailedResult
  have hlit : ("EXECUTION_FAILED" ++ ": " : String) = "EXECUTION_FAILED: " := by
    decide
  have h : ("EXECUTION_FAILED: " ++ m : String) =
      "EXECUTION_FAILED" ++ (": " ++ m) := by
    rw [← string_append_assoc, hlit]
  rw [h]
  exact pyStartsWith_self_append "EXECUTION_FAILED" (": " ++ m)

/-- A failed execution result does not carry the `EMPTY_RESULT`
prefix. -/
theorem isEmpty_execFailed (m : String) :
    isEmptyResult ("EXECUTION_FAILED: " ++ m) = false := by
  unfold isEmptyResult
  exact pyStartsWith_append_of_le "EXECUTION_FAILED: " m "EMPTY_RESULT"
    (by decide) (by decide)

/-- Dumped rows never carry the `EXECUTION_FAILED` prefix. -/
theorem isFailed_renderRows (rows : List Row) :
    isFailedResult (renderRows rows) = false := by
  unfold isFailedResult
  exact pyStartsWith_false_of_head_ne _ _ '[' 'E' (renderRows_head rows) rfl
    (by decide)

/-- Dumped rows never carry the `EMPTY_RESULT` prefix. -/
theorem isEmpty_renderRows (rows : List Row) :
    isEmptyResult (renderRows rows) = false := by
  unfold isEmptyResult
  exact pyStartsWith_false_of_head_ne _ _ '[' 'E' (renderRows_head rows) rfl
    (by decide)

/-- Trichotomy of `run_sql_query` results. -/
theorem run_sql_query_cases (env : SqlEnv) (q : String) :
    (∃ m, run_sql_query env q = "EXECUTION_FAILED: " ++ m) ∨
    run_sql_query env q = emptyResultMsg ∨
    (∃ rows, run_sql_query env q = renderRows rows) := by
  cases hex : execute_read_only_sql env q with
  | error msg =>
      refine Or.inl ⟨msg, ?_⟩
      unfold run_sql_query
      rw [hex]
  | rows rs c =>
      by_cases h : (c == 0) = true
      · refine Or.inr (Or.inl ?_)
        unfold run_sql_query
        rw [hex]
        simp only [h, if_true]
      · refine Or.inr (Or.inr ⟨rs, ?_⟩)
        unfold run_sql_query
        rw [hex]
        simp only [if_neg h]

/-- The abstain response always has a non-empty answer: the canned
response does, and the provider-tailored branch falls back to it when
the parsed answer is empty. -/
theorem abstain_answer_nonempty (p : Provider) (utils : TextUtils)
    (uq ht : String) :
    (abstain_response_from_llm p utils uq ht).answer ≠ "" := by
  simp only [abstain_response_from_llm]
  generalize utils.extractJson _ = j
  cases j with
  | none => decide
  | some parsed =>
      by_cases h : (pyStrip parsed.answer == "") = true
      · simp only [h, if_true]
        decide
      · simp only [if_neg h]
        show pyStrip parsed.answer ≠ ""
        simpa using h

/-- `noEmptyEvents` is closed under append. -/
theorem noEmptyEvents_append (xs ys : List ToolEvent)
    (h1 : noEmptyEvents xs) (h2 : noEmptyEvents ys) :
    noEmptyEvents (xs ++ ys) := by
  intro e he
  rcases List.mem_append.mp he with h | h
  · exact h1 e h
  · exact h2 e h

/-- The empty event list has no empty-result events. -/
theorem noEmptyEvents_nil : noEmptyEvents [] := by
  intro e he
  cases he

/-- Decomposing a list that ends in a distinguished element: any
middle-element decomposition either ends there or picks an element of
the prefix. -/
theorem append_singleton_decomp {α : Type} (pre : List α) :
    ∀ (l : List α) (x y : α) (post : List α),
      l ++ [x] = pre ++ y :: post → post = [] ∨ y ∈ l := by
  induction pre with
  | nil =>
      intro l x y post h
      cases l with
      | nil =>
          simp only [List.nil_append] at h
          cases h
          exact Or.inl rfl
      | cons a as =>
          simp only [List.cons_append, List.nil_append, List.cons.injEq] at h
          exact Or.inr (h.1 ▸ List.mem_cons_self _ _)
  | cons pHead pTail ih =>
      intro l x y post h
      cases l with
      | nil =>
          simp only [List.nil_append, List.cons_append, List.cons.injEq] at h
          rcases h with ⟨_, h2⟩
          exact absurd h2.symm (by simp)
      | cons a as =>
          simp only [List.cons_append, List.cons.injEq] at h
          rcases ih as x y post h.2 with hpost | hmem
          · exact Or.inl hpost
          · exact Or.inr (List.mem_cons_of_mem _ hmem)

/-- The last message after a `save_chat_message` is the saved message. -/
theorem save_chat_message_getLast (st : ChatStore) (sid role : String)
    (c : MsgContent) :
    (save_chat_message st sid role c).messages.getLast? =
      some ⟨sid, role, c⟩ := by
  simp [save_chat_message]

/-- A singleton of a non-empty-result event. -/
theorem noEmptyEvents_singleton (e : ToolEvent)
    (h : isEmptySqlEvent e = false) : noEmptyEvents [e] := by
  intro x hx
  rw [List.mem_singleton] at hx
  subst hx
  exact h

/-- A false boolean is not true. -/
theorem bool_ne_true {b : Bool} (h : b = false) : ¬(b = true) := by
  rw [h]
  simp

/-- The batch invariant is preserved when moving the base point left past
non-empty-result events. -/
theorem batchOutOk_mono (p : Provider) (utils : TextUtils) (sid uq ht : String)
    (base xs : List ToolEvent) (hxs : noEmptyEvents xs) (out : BatchOut)
    (h : batchOutOk p utils sid uq ht (base ++ xs) out) :
    batchOutOk p utils sid uq ht base out := by
  cases out with
  | cont st2 =>
      rcases h with ⟨new, he, hn⟩
      exact ⟨xs ++ new, by rw [he, List.append_assoc],
        noEmptyEvents_append _ _ hxs hn⟩
  | answered r s e =>
      rcases h with ⟨h1, h2, new, q, rr, hn, hrr, he⟩
      refine ⟨h1, h2, xs ++ new, q, rr,
        noEmptyEvents_append _ _ hxs hn, hrr, ?_⟩
      rw [he]
      simp [List.append_assoc]

/-- The loop invariant is preserved when moving the base point left past
non-empty-result events. -/
theorem loopOutOk_mono (p : Provider) (utils : TextUtils) (sid uq ht : String)
    (base xs : List ToolEvent) (hxs : noEmptyEvents xs)
    (out : Sum ToolLoopSt (AnswerObj × ChatStore × List ToolEvent))
    (h : loopOutOk p utils sid uq ht (base ++ xs) out) :
    loopOutOk p utils sid uq ht base out := by
  cases out with
  | inl st2 =>
      rcases h with ⟨new, he, hn⟩
      exact ⟨xs ++ new, by rw [he, List.append_assoc],
        noEmptyEvents_append _ _ hxs hn⟩
  | inr rse =>
      rcases h with ⟨h1, h2, new, q, rr, hn, hrr, he⟩
      refine ⟨h1, h2, xs ++ new, q, rr,
        noEmptyEvents_append _ _ hxs hn, hrr, ?_⟩
      rw [he]
      simp [List.append_assoc]

/-- The non-tool invariant is preserved when moving the base point left
past non-empty-result events. -/
theorem noToolsOutOk_mono (p : Provider) (utils : TextUtils)
    (sid uq ht : String) (base xs : List ToolEvent) (hxs : noEmptyEvents xs)
    (out : NoToolsOut)
    (h : noToolsOutOk p utils sid uq ht (base ++ xs) out) :
    noToolsOutOk p utils sid uq ht base out := by
  cases out with
  | answered r s e =>
      rcases h with ⟨new, he, hn, hsave⟩ | ⟨h1, h2, new, q, rr, hn, hrr, he⟩
      · exact Or.inl ⟨xs ++ new, by rw [he, List.append_assoc],
          noEmptyEvents_append _ _ hxs hn, hsave⟩
      · refine Or.inr ⟨h1, h2, xs ++ new, q, rr,
          noEmptyEvents_append _ _ hxs hn, hrr, ?_⟩
        rw [he]
        simp [List.append_assoc]
  | exhausted s e =>
      rcases h with ⟨new, he, hn⟩
      exact ⟨xs ++ new, by rw [he, List.append_assoc],
        noEmptyEvents_append _ _ hxs hn⟩

/-- Every batch of tool calls satisfies the batch invariant: only
non-empty-result events are appended unless a zero-row `run_sql_query`
occurs, in which case the batch returns the persisted abstain response
at once. -/
theorem processBatch_events (p : Provider) (utils : TextUtils) (env : LibEnv)
    (sid uq ht : String) :
    ∀ (calls : List ToolCall) (st : ToolLoopSt),
      batchOutOk p utils sid uq ht st.events
        (processBatch p utils env sid uq ht calls st) := by
  intro calls
  induction calls with
  | nil =>
      intro st
      exact ⟨[], by simp, noEmptyEvents_nil⟩
  | cons call rest ih =>
      intro st
      simp only [processBatch]
      by_cases hname : (call.name == "run_sql_query") = true
      · rw [if_pos hname]
        rcases run_sql_query_cases env.sqlEnv call.argQuery with
          ⟨m, hm⟩ | hm | ⟨rows, hm⟩
        · rw [hm, if_pos (isFailed_execFailed m)]
          exact ⟨[ToolEvent.sqlCall call.argQuery ("EXECUTION_FAILED: " ++ m)],
            rfl, noEmptyEvents_singleton _ (isEmpty_execFailed m)⟩
        · have hf : isFailedResult emptyResultMsg = false := by decide
          have hemp : isEmptyResult emptyResultMsg = true := by decide
          rw [hm, if_neg (bool_ne_true hf), if_pos hemp]
          exact ⟨rfl, ⟨_, rfl⟩, [], call.argQuery, emptyResultMsg,
            noEmptyEvents_nil, hemp, by simp⟩
        · rw [hm, if_neg (bool_ne_true (isFailed_renderRows rows)),
            if_neg (bool_ne_true (isEmpty_renderRows rows))]
          exact batchOutOk_mono p utils sid uq ht st.events
            [ToolEvent.sqlCall call.argQuery (renderRows rows)]
            (noEmptyEvents_singleton _ (isEmpty_renderRows rows)) _ (ih _)
      · rw [if_neg hname]
        by_cases hsim : (call.name == "search_similar_traces") = true
        · rw [if_pos hsim]
          exact batchOutOk_mono p utils sid uq ht st.events
            [ToolEvent.simCall call.argQuery call.argMinRating call.argLimit
              (env.simSearch call.argQuery call.argMinRating call.argLimit)]
            (noEmptyEvents_singleton _ rfl) _ (ih _)
        · rw [if_neg hsim]
          exact batchOutOk_mono p utils sid uq ht st.events
            [ToolEvent.unknownCall call.name]
            (noEmptyEvents_singleton _ rfl) _ (ih _)

/-- The bounded tool loop satisfies the loop invariant. -/
theorem toolLoop_events (p : Provider) (utils : TextUtils) (env : LibEnv)
    (sid uq ht : String) :
    ∀ (fuel : Nat) (st : ToolLoopSt),
      loopOutOk p utils sid uq ht st.events
        (toolLoop p utils env sid uq ht fuel st) := by
  intro fuel
  induction fuel with
  | zero =>
      intro st
      exact ⟨[], by simp, noEmptyEvents_nil⟩
  | succ n ih =>
      intro st
      simp only [toolLoop]
      by_cases hc : (st.response.calls == []) = true
      · rw [if_pos hc]
        exact ⟨[], by simp, noEmptyEvents_nil⟩
      · rw [if_neg hc]
        have hb := processBatch_events p utils env sid uq ht st.response.calls st
        cases hpb : processBatch p utils env sid uq ht st.response.calls st with
        | answered r s e =>
            rw [hpb] at hb
            exact hb
        | cont st2 =>
            rw [hpb] at hb
            rcases hb with ⟨new1, he1, hn1⟩
            have h2 := ih st2
            rw [he1] at h2
            exact loopOutOk_mono p utils sid uq ht st.events new1 hn1 _ h2

/-- The non-tool loop satisfies its invariant. -/
theorem noToolsLoop_events (p : Provider) (utils : TextUtils) (env : LibEnv)
    (sid uq ht : String) :
    ∀ (fuel : Nat) (session : Transcript) (prompt : String)
      (store : ChatStore) (events : List ToolEvent),
      noToolsOutOk p utils sid uq ht events
        (noToolsLoop p utils env sid uq ht fuel session prompt store events) := by
  intro fuel
  induction fuel with
  | zero =>
      intro session prompt store events
      exact ⟨[], by simp, noEmptyEvents_nil⟩
  | succ n ih =>
      intro session prompt store events
      simp only [noToolsLoop]
      cases htr :
          truthyStr (utils.extractSql
            (p.send_user_message session prompt).2.text) with
      | none => exact ih _ _ _ _
      | some sql_query =>
          dsimp only
          rcases run_sql_query_cases env.sqlEnv sql_query with
            ⟨m, hm⟩ | hm | ⟨rows, hm⟩
          · rw [hm, if_pos (isFailed_execFailed m)]
            have h2 := ih (p.send_user_message session prompt).1
              (sqlFailedPromptNoTools ("EXECUTION_FAILED: " ++ m)) store
              (events ++ [ToolEvent.sqlCall sql_query ("EXECUTION_FAILED: " ++ m)])
            exact noToolsOutOk_mono p utils sid uq ht events
              [ToolEvent.sqlCall sql_query ("EXECUTION_FAILED: " ++ m)]
              (noEmptyEvents_singleton _ (isEmpty_execFailed m)) _ h2
          · have hf : isFailedResult emptyResultMsg = false := by decide
            have hemp : isEmptyResult emptyResultMsg = true := by decide
            rw [hm, if_neg (bool_ne_true hf), if_pos hemp]
            exact Or.inr ⟨rfl, ⟨_, rfl⟩, [], sql_query, emptyResultMsg,
              noEmptyEvents_nil, hemp, by simp⟩
          · rw [hm, if_neg (bool_ne_true (isFailed_renderRows rows)),
              if_neg (bool_ne_true (isEmpty_renderRows rows))]
            exact Or.inl ⟨[ToolEvent.sqlCall sql_query (renderRows rows)], rfl,
              noEmptyEvents_singleton _ (isEmpty_renderRows rows), ⟨_, rfl⟩⟩

/-- Lifting the loop invariants to the whole `query` run: either no
zero-row `run_sql_query` occurred, or the result is the abstain
response, it is the last persisted assistant message, and the event log
ends at the zero-row execution. -/
theorem query_events_invariant (p : Provider) (utils : TextUtils)
    (env : LibEnv) (store : ChatStore) (uq sid : String) :
    noEmptyEvents (LibrarianAgent.query true p utils env store uq sid).2.2 ∨
    ((LibrarianAgent.query true p utils env store uq sid).1 =
        abstain_response_from_llm p utils uq
          (format_history (get_chat_history store sid)) ∧
      (∃ st3, (LibrarianAgent.query true p utils env store uq sid).2.1 =
        save_chat_message st3 sid "assistant"
          (.result (LibrarianAgent.query true p utils env store uq sid).1)) ∧
      ∃ new q rr, noEmptyEvents new ∧ isEmptyResult rr = true ∧
        (LibrarianAgent.query true p utils env store uq sid).2.2 =
          new ++ [ToolEvent.sqlCall q rr]) := by
  by_cases hst : p.supports_tools = true
  · simp only [LibrarianAgent.query, hst, Bool.not_true, Bool.false_eq_true,
      if_false]
    have hl := toolLoop_events p utils env sid uq
      (format_history (get_chat_history store sid)) 3
      { session := (p.send_user_message
          (p.start_chat librarianSystemPrompt librarianTools)
          (queryUserContent (format_history (get_chat_history store sid)) uq)).1
        response := (p.send_user_message
          (p.start_chat librarianSystemPrompt librarianTools)
          (queryUserContent (format_history (get_chat_history store sid)) uq)).2
        store := save_chat_message store sid "user" (.text uq)
        lastSqlResult := none, sawSqlResult := false, events := [] }
    cases hout : toolLoop p utils env sid uq
        (format_history (get_chat_history store sid)) 3
        { session := (p.send_user_message
            (p.start_chat librarianSystemPrompt librarianTools)
            (queryUserContent (format_history (get_chat_history store sid)) uq)).1
          response := (p.send_user_message
            (p.start_chat librarianSystemPrompt librarianTools)
            (queryUserContent (format_history (get_chat_history store sid)) uq)).2
          store := save_chat_message store sid "user" (.text uq)
          lastSqlResult := none, sawSqlResult := false, events := [] } with
    | inl stf =>
        rw [hout] at hl
        rcases hl with ⟨new, he, hn⟩
        refine Or.inl ?_
        simpa [he] using hn
    | inr rse =>
        rw [hout] at hl
        rcases hl with ⟨h1, h2, new, q, rr, hn, hrr, he⟩
        refine Or.inr ⟨?_, ?_, new, q, rr, hn, hrr, ?_⟩
        · simpa using h1
        · simpa using h2
        · simpa using he
  · have hst2 : p.supports_tools = false := by
      cases hpt : p.supports_tools
      · rfl
      · exact absurd hpt hst
    simp only [LibrarianAgent.query, hst2, Bool.not_true, Bool.not_false,
      Bool.false_eq_true, if_false, if_true]
    have hl := noToolsLoop_events p utils env sid uq
      (format_history (get_chat_history store sid)) 3
      (p.start_chat librarianSystemPrompt [])
      (queryUserContent (format_history (get_chat_history store sid)) uq ++
        "\n\nProvide a SQL SELECT query only (or JSON with key 'sql').")
      (save_chat_message store sid "user" (.text uq)) []
    cases hout : noToolsLoop p utils env sid uq
        (format_history (get_chat_history store sid)) 3
        (p.start_chat librarianSystemPrompt [])
        (queryUserContent (format_history (get_chat_history store sid)) uq ++
          "\n\nProvide a SQL SELECT query only (or JSON with key 'sql').")
        (save_chat_message store sid "user" (.text uq)) [] with
    | answered r s e =>
        rw [hout] at hl
        rcases hl with ⟨new, he, hn, _⟩ | ⟨h1, h2, new, q, rr, hn, hrr, he⟩
        · refine Or.inl ?_
          simpa [he] using hn
        · refine Or.inr ⟨?_, ?_, new, q, rr, hn, hrr, ?_⟩
          · simpa using h1
          · simpa using h2
          · simpa using he
    | exhausted s e =>
        rw [hout] at hl
        rcases hl with ⟨new, he, hn⟩
        refine Or.inl ?_
        simpa [he] using hn

/-! ### C3 — main theorem -/

/-- C3: whenever a run of `LibrarianAgent.query` performs a
`run_sql_query` execution that succeeds with zero rows (an
`EMPTY_RESULT` event in the run's tool log), that event is the last tool
execution of the run (no further tool iterations are attempted), the
returned value is exactly the abstain response — a normal answer object,
not an error — its `answer` is non-empty, and it is persisted as the
final assistant message of the session. -/
theorem librarian_abstains_on_empty_result (p : Provider)
    (utils : TextUtils) (env : LibEnv) (store : ChatStore) (uq sid : String)
    (pre post : List ToolEvent) (q r : String)
    (hev : (LibrarianAgent.query true p utils env store uq sid).2.2 =
      pre ++ ToolEvent.sqlCall q r :: post)
    (hr : isEmptyResult r = true) :
    post = [] ∧
    (LibrarianAgent.query true p utils env store uq sid).1 =
      abstain_response_from_llm p utils uq
        (format_history (get_chat_history store sid)) ∧
    (LibrarianAgent.query true p utils env store uq sid).1.answer ≠ "" ∧
    (LibrarianAgent.query true p utils env store uq sid).2.1.messages.getLast? =
      some ⟨sid, "assistant",
        .result (LibrarianAgent.query true p utils env store uq sid).1⟩ := by
  rcases query_events_invariant p utils env store uq sid with hne |
    ⟨habs, ⟨st3, hsave⟩, new, q0, rr, hn, hrr, he⟩
  · exfalso
    have hmem : ToolEvent.sqlCall q r ∈
        (LibrarianAgent.query true p utils env store uq sid).2.2 := by
      rw [hev]
      exact List.mem_append_right _ (List.mem_cons_self _ _)
    have hfalse : isEmptySqlEvent (ToolEvent.sqlCall q r) = false := hne _ hmem
    have : isEmptyResult r = false := hfalse
    rw [hr] at this
    exact absurd this (by decide)
  · have hev2 : new ++ [ToolEvent.sqlCall q0 rr] =
        pre ++ ToolEvent.sqlCall q r :: post := by
      rw [← he, ← hev]
    refine ⟨?_, habs, ?_, ?_⟩
    · rcases append_singleton_decomp pre new (ToolEvent.sqlCall q0 rr)
        (ToolEvent.sqlCall q r) post hev2 with hpost | hmem
      · exact hpost
      · exfalso
        have hfalse : isEmptySqlEvent (ToolEvent.sqlCall q r) = false :=
          hn _ hmem
        have : isEmptyResult r = false := hfalse
        rw [hr] at this
        exact absurd this (by decide)
    · rw [habs]
      exact abstain_answer_nonempty p utils uq _
    · rw [hsave, save_chat_message_getLast]

/-- Witness for `librarian_abstains_on_empty_result`: a tool-calling
provider whose first `run_sql_query` hits an empty table abstains at
once. -/
theorem librarian_abstains_on_empty_result_witness :
    [] = ([] : List ToolEvent) ∧
    (LibrarianAgent.query true alwaysToolProvider noneUtils emptyLibEnv
        ChatStore.empty "list recent traces" "sess-3").1 =
      abstain_response_from_llm alwaysToolProvider noneUtils
        "list recent traces"
        (format_history (get_chat_history ChatStore.empty "sess-3")) ∧
    (LibrarianAgent.query true alwaysToolProvider noneUtils emptyLibEnv
        ChatStore.empty "list recent traces" "sess-3").1.answer ≠ "" ∧
    (LibrarianAgent.query true alwaysToolProvider noneUtils emptyLibEnv
        ChatStore.empty "list recent traces" "sess-3").2.1.messages.getLast? =
      some ⟨"sess-3", "assistant",
        .result (LibrarianAgent.query true alwaysToolProvider noneUtils
          emptyLibEnv ChatStore.empty "list recent traces" "sess-3").1⟩ :=
  librarian_abstains_on_empty_result alwaysToolProvider noneUtils emptyLibEnv
    ChatStore.empty "list recent traces" "sess-3" [] []
    "SELECT id FROM traces" emptyResultMsg (by decide) (by decide)

/-! ### C8 -/

/-! ### C8 -/

/-- C8 counterexample.  The claim states the response's `session_id`
equals the caller-supplied session id whenever one was given.  The
endpoint computes `session_id = query.session_id or str(uuid.uuid4())`,
so a caller-supplied *empty* session id is discarded in favour of a
fresh one. -/
theorem endpoint_empty_session_id_not_echoed :
    (natural_language_query true "generated-uuid" okAgent "what failed"
      (some "")).session_id = "generated-uuid" ∧
    ("generated-uuid" : String) ≠ "" :=
  ⟨rfl, by decide⟩

/-- C8 (amended): on every return branch — provider unavailable, agent
success, and agent exception — the response's `session_id` equals the
caller-supplied id when a non-empty one was given, and the freshly
generated id when the caller's id is absent or empty
(`resolveSessionId`). -/
theorem endpoint_session_id_on_every_branch (available : Bool)
    (fresh : String) (agent : String → String → AgentOutcome) (q : String)
    (session_id : Option String) :
    (natural_language_query available fresh agent q session_id).session_id =
      resolveSessionId fresh session_id := by
  cases available with
  | false => rfl
  | true =>
      cases hag : agent q (resolveSessionId fresh session_id) with
      | ok r => simp [natural_language_query, hag]
      | raised m => simp [natural_language_query, hag]

end ToolBrain
